import Mathlib

set_option linter.unusedVariables false

/-!
# Verification of the LACES-GENESIS collaboration server and maintenance agent

Shallow embedding of `src/main.py` (collaboration core: distributed lock
manager, websocket connection manager, edit-operation pipeline) and
`src/agent.py` (maintenance core: health assessment, failure prediction,
ticket deduplication), together with theorems settling the specification
claims about them.

Conventions of the embedding:
* ids (`twin_id`, `user_id`, `session_id`, `lock_id`, `operation_id`) are
  UUIDs in the source; they are opaque identifiers, embedded as `Nat`.
* websocket session ids are strings in the source and stay `String` here.
* instants are embedded as `Nat` seconds (`Int` hours for ticket times);
  Redis TTL expiry is modelled by storing the absolute expiry instant with
  each KV entry and treating an entry as dead once `now` has reached it,
  exactly as a Redis `GET`/`SET nx`/`EXPIRE` observes a key with lapsed TTL.
* each public operation of the source runs between two `await` points as a
  single atomic step here (sequential interleaving model).
* Python float values carried by telemetry rows are embedded as `ℚ`
  (every float is a rational); the derived quantities that the source
  computes with `np.sqrt` / `np.exp` live in `ℝ`.
-/

/-! ## State of the collaboration server (`src/main.py`) -/

/-- The JSON record `lock_data` stored in Redis under `lock:twin:<twin_id>`
(`LockManager.acquire_lock`, main.py lines 144-161).  `kv_expires_at` is the
absolute instant at which the Redis TTL of the key lapses. -/
structure LockData where
  lock_id : Nat
  twin_id : Nat
  user_id : Nat
  session_id : Nat
  components : List String
  lock_type : String
  kv_expires_at : Nat
deriving DecidableEq

/-- A row of the SQL table `edit_locks` (insert at main.py lines 167-175).
The INSERT does not set `is_active`; a fresh row is active (the data model's
lock lifecycle starts at `acquired`). -/
structure EditLockRow where
  lock_id : Nat
  twin_id : Nat
  user_id : Nat
  session_id : Nat
  lock_type : String
  locked_components : List String
  expires_at : Nat
  heartbeat_at : Nat
  is_active : Bool
deriving DecidableEq

/-- The request body of `POST /edit-operations` (pydantic model
`EditOperation`, main.py lines 379-384).  `operation_data` is an opaque
serialized JSON value; `vector_clock` is optional. -/
structure EditOperation where
  twin_id : Nat
  operation_type : String
  component_path : String
  operation_data : String
  vector_clock : Option (List (String × Nat))
deriving DecidableEq

/-- A row of the SQL table `edit_operations` (insert at main.py lines
617-626).  The source stores `operation.vector_clock or {}`. -/
structure EditOpRow where
  operation_id : Nat
  twin_id : Nat
  user_id : Nat
  operation_type : String
  component_path : String
  operation_data : String
  vector_clock : List (String × Nat)
deriving DecidableEq

/-- The JSON frame broadcast by `submit_edit_operation`
(main.py lines 629-637). -/
structure Envelope where
  mtype : String
  operation_id : Nat
  user_id : Nat
  operation : EditOperation
deriving DecidableEq

/-- Combined state of the collaboration server: the clock, the Redis KV
(keyed by the twin id of the key `lock:twin:<twin_id>`), the SQL tables
`edit_locks` and `edit_operations`, and the in-memory `ConnectionManager`
indices.  `delivered` is the log of successful `send_json` calls made by
`broadcast_to_twin`: the pair `(sid, env)` records that session `sid`
received frame `env`.  Transport sends are modelled as always succeeding,
so the dead-peer pruning branch of `broadcast_to_twin` is never taken. -/
structure SysState where
  now : Nat
  kv : List (Nat × LockData)
  locks : List EditLockRow
  edit_operations : List EditOpRow
  active_connections : List String
  twin_subscribers : List (Nat × List String)
  delivered : List (String × Envelope)
deriving DecidableEq

/-! ## Redis primitives

Redis expires a key once its TTL has lapsed: an expired key is invisible to
`GET`, free for `SET nx=True`, and a no-op for `EXPIRE`.  `DELETE` removes
the key unconditionally. -/

/-- `GET lock:twin:<twin>`: the stored record, unless its TTL has lapsed. -/
def redisGet (kv : List (Nat × LockData)) (now twin : Nat) : Option LockData :=
  match List.lookup twin kv with
  | some d => if now < d.kv_expires_at then some d else none
  | none => none

/-- `SET key value nx=True ex=...`: succeeds only if no live entry exists. -/
def redisSetNX (kv : List (Nat × LockData)) (now twin : Nat) (d : LockData) :
    Bool × List (Nat × LockData) :=
  match redisGet kv now twin with
  | some _ => (false, kv)
  | none => (true, (twin, d) :: kv.filter (fun p => p.1 != twin))

/-- `DELETE lock:twin:<twin>`. -/
def redisDelete (kv : List (Nat × LockData)) (twin : Nat) : List (Nat × LockData) :=
  kv.filter (fun p => p.1 != twin)

/-- `EXPIRE lock:twin:<twin> seconds`: resets the TTL of a live key and is a
no-op on a dead or absent key. -/
def redisExpire (kv : List (Nat × LockData)) (now twin seconds : Nat) :
    List (Nat × LockData) :=
  match redisGet kv now twin with
  | some d => (twin, { d with kv_expires_at := now + seconds }) :: kv.filter (fun p => p.1 != twin)
  | none => kv

/-! ## LockManager (main.py lines 103-225) -/

/-- Truthiness of `locked_components & requested_components` in Python:
the two sets intersect. -/
def componentsOverlap (a b : List String) : Bool :=
  a.any (fun c => b.contains c)

/-- `LockManager.acquire_lock` (main.py lines 113-178).  The source reads
the twin's Redis record; if one is live it returns `None` either at the
explicit conflict checks (exclusive request overlapping the holder's
components, or the holder being exclusive) or, failing those, at the
`SET nx=True` that cannot succeed while the key exists.  If no live record
exists, the `SET nx=True` installs the new record with TTL `timeout` and a
shadow row is inserted into `edit_locks`.  `newLockId` stands for the
`uuid4()` the source draws. -/
def acquire_lock (s : SysState) (newLockId : Nat) (twin_id user_id session_id : Nat)
    (components : List String) (lock_type : String) (timeout : Nat) :
    Option Nat × SysState :=
  match redisGet s.kv s.now twin_id with
  | some existing =>
    if lock_type == "exclusive" && componentsOverlap existing.components components then
      (none, s)
    else if existing.lock_type == "exclusive" then
      (none, s)
    else
      (none, s)
  | none =>
    let lock_data : LockData :=
      ⟨newLockId, twin_id, user_id, session_id, components, lock_type, s.now + timeout⟩
    match redisSetNX s.kv s.now twin_id lock_data with
    | (false, _) => (none, s)
    | (true, kv2) =>
      let row : EditLockRow :=
        ⟨newLockId, twin_id, user_id, session_id, lock_type, components,
          s.now + timeout, s.now, true⟩
      (some newLockId, { s with kv := kv2, locks := s.locks ++ [row] })

/-- `SELECT ... FROM edit_locks WHERE lock_id = $1` (no `is_active`
filter): the first row with the given id. -/
def findLockRow (locks : List EditLockRow) (lock_id : Nat) : Option EditLockRow :=
  locks.find? (fun r => r.lock_id == lock_id)

/-- `LockManager.release_lock` (main.py lines 180-202): looks the row up by
`lock_id` alone; if absent returns `False`; otherwise deletes the Redis key
`lock:twin:<twin_id>` of the row's twin, marks the row inactive, and
returns `True`. -/
def release_lock (s : SysState) (lock_id : Nat) : Bool × SysState :=
  match findLockRow s.locks lock_id with
  | none => (false, s)
  | some lock =>
    let kv2 := redisDelete s.kv lock.twin_id
    let locks2 := s.locks.map (fun r =>
      if r.lock_id == lock_id then { r with is_active := false } else r)
    (true, { s with kv := kv2, locks := locks2 })

/-- The statuses the specification's heartbeat contract names.  The source
function has no `return` statement: every call returns Python `None`, so no
value of this type is ever produced by the embedded `heartbeat_lock`. -/
inductive HeartbeatStatus where
  | ok
  | expired
  | notFound
deriving DecidableEq

/-- `LockManager.heartbeat_lock` (main.py lines 204-218): sets
`heartbeat_at = NOW()` on the active row with this `lock_id`, then fetches
the row's twin and issues `EXPIRE lock:twin:<twin_id> 300` (a no-op when
the key has already expired).  The function falls off the end, returning
Python `None` on every path — embedded as `none`. -/
def heartbeat_lock (s : SysState) (lock_id : Nat) :
    Option HeartbeatStatus × SysState :=
  let locks2 := s.locks.map (fun r =>
    if r.lock_id == lock_id && r.is_active then { r with heartbeat_at := s.now } else r)
  match findLockRow locks2 lock_id with
  | some lock =>
    (none, { s with locks := locks2, kv := redisExpire s.kv s.now lock.twin_id 300 })
  | none => (none, { s with locks := locks2 })

/-- Modelled from the spec: the SQL function `release_stale_locks()` that
`LockManager.cleanup_stale_locks` (main.py lines 220-225) invokes every 30
seconds is not in `src/`.  Per the spec it marks inactive every lock whose
`heartbeat_at + grace < now` or `expires_at < now` and deletes the
corresponding KV records. -/
def release_stale_locks (grace : Nat) (s : SysState) : SysState :=
  let isStale : EditLockRow → Bool := fun r =>
    r.is_active && (r.heartbeat_at + grace < s.now || r.expires_at < s.now)
  let staleTwins := (s.locks.filter isStale).map (fun r => r.twin_id)
  { s with
    locks := s.locks.map (fun r => if isStale r then { r with is_active := false } else r)
    kv := s.kv.filter (fun p => !(staleTwins.contains p.1)) }

/-! ## ConnectionManager and the edit pipeline (main.py lines 233-306, 613-639) -/

/-- The subscriber set of a twin (`self.twin_subscribers`). -/
def lookupSubscribers (subs : List (Nat × List String)) (twin_id : Nat) :
    Option (List String) :=
  List.lookup twin_id subs

/-- `ConnectionManager.broadcast_to_twin` (main.py lines 278-297): iterate
the twin's subscribers, skip `exclude_session`, and `send_json` the message
to every session that has an active connection.  Sends are modelled as
always succeeding, so the `disconnected` pruning list stays empty. -/
def broadcast_to_twin (s : SysState) (twin_id : Nat) (message : Envelope)
    (exclude_session : Option String) : SysState :=
  match lookupSubscribers s.twin_subscribers twin_id with
  | none => s
  | some subs =>
    let recipients := subs.filter (fun sid =>
      !(exclude_session == some sid) && s.active_connections.contains sid)
    { s with delivered := s.delivered ++ recipients.map (fun sid => (sid, message)) }

/-- `POST /edit-operations` (`submit_edit_operation`, main.py lines
613-639): insert the operation row (storing `vector_clock or` the empty
map), broadcast the `edit_operation` envelope to the twin's subscribers
with no `exclude_session` argument (the source call at lines 629-637 omits
it, so it defaults to `None`), and answer with the fresh operation id.
There is no lock check anywhere in the handler. -/
def submit_edit_operation (s : SysState) (operation_id : Nat)
    (operation : EditOperation) (user_id : Nat) : Nat × SysState :=
  let row : EditOpRow :=
    ⟨operation_id, operation.twin_id, user_id, operation.operation_type,
      operation.component_path, operation.operation_data,
      operation.vector_clock.getD []⟩
  let s1 := { s with edit_operations := s.edit_operations ++ [row] }
  let env : Envelope := ⟨"edit_operation", operation_id, user_id, operation⟩
  (operation_id, broadcast_to_twin s1 operation.twin_id env none)

/-- `DELETE /locks/{lock_id}` (main.py lines 606-611). -/
inductive ReleaseResult where
  | released
  | notFound
deriving DecidableEq

/-- The HTTP layer over `release_lock`: 404 when it returns `False`,
otherwise `status: released`. -/
def release_lock_endpoint (s : SysState) (lock_id : Nat) :
    ReleaseResult × SysState :=
  match release_lock s lock_id with
  | (true, s2) => (ReleaseResult.released, s2)
  | (false, s2) => (ReleaseResult.notFound, s2)

/-- The spec's validation predicate for `POST /edit-operations` ("the
caller must hold an active lock whose component set covers
`component_path`"), written from the spec's words because no such check
exists in `submit_edit_operation`.  Active: `is_active` and not past
`expires_at`; covers: the path is one of the lock's components. -/
def specCoveringLock (s : SysState) (user_id twin_id : Nat)
    (component_path : String) : Bool :=
  s.locks.any (fun r =>
    r.is_active && r.user_id == user_id && r.twin_id == twin_id &&
    decide (s.now < r.expires_at) && r.locked_components.contains component_path)

/-- Number of `edit_operation` frames referencing operation `opId` that
session `sid` has received. -/
def countFrames (delivered : List (String × Envelope)) (sid : String)
    (opId : Nat) : Nat :=
  (delivered.filter (fun p =>
    p.1 == sid && p.2.mtype == "edit_operation" && p.2.operation_id == opId)).length

/-! ## Reachability through the lock manager's operations -/

/-- The server boots with an empty KV, empty tables and no connections. -/
def initialState : SysState := ⟨0, [], [], [], [], [], []⟩

/-- One atomic step of the lock manager: time passing (which is also how a
KV TTL lapses, since `redisGet`/`redisSetNX`/`redisExpire` treat a lapsed
entry as absent), an `acquire_lock` call with a fresh uuid, a
`release_lock` call, a `heartbeat_lock` call, or a run of the stale-lock
reaper. -/
inductive LockStep : SysState → SysState → Prop where
  | tick (s : SysState) (d : Nat) : LockStep s { s with now := s.now + d }
  | acquire (s : SysState) (lid twin user sess : Nat) (comps : List String)
      (lt : String) (timeout : Nat) (hfresh : findLockRow s.locks lid = none) :
      LockStep s (acquire_lock s lid twin user sess comps lt timeout).2
  | release (s : SysState) (lid : Nat) : LockStep s (release_lock s lid).2
  | heartbeat (s : SysState) (lid : Nat) : LockStep s (heartbeat_lock s lid).2
  | reap (s : SysState) (grace : Nat) : LockStep s (release_stale_locks grace s)

/-- States reachable from boot through the lock manager's operations. -/
inductive LockReachable : SysState → Prop where
  | init : LockReachable initialState
  | step {s s' : SysState} : LockReachable s → LockStep s s' → LockReachable s'

/-- An `edit_locks` row that is active at instant `now`: still flagged
`is_active` and not past its `expires_at`. -/
def activeRow (now : Nat) (r : EditLockRow) : Bool :=
  r.is_active && decide (now < r.expires_at)

/-- The spec's lock invariant: no two distinct simultaneously active locks
on the same twin have overlapping components when at least one of the two
is exclusive (this covers both "at most one active exclusive lock on any
component" and "no shared lock overlaps an exclusive lock"). -/
def lockInvariant (s : SysState) : Bool :=
  s.locks.all (fun r1 => s.locks.all (fun r2 =>
    !(activeRow s.now r1 && activeRow s.now r2 && r1.twin_id == r2.twin_id &&
      componentsOverlap r1.locked_components r2.locked_components &&
      !(r1.lock_id == r2.lock_id) &&
      (r1.lock_type == "exclusive" || r2.lock_type == "exclusive"))))

/-! ## Sanity checks of the embedding on the spec's lock-contention
scenario (acquire on a free twin succeeds, an overlapping exclusive
re-acquire conflicts, release frees the twin for re-acquire). -/

example :
    (acquire_lock initialState 1 1 10 20 ["chassis.bolt1"] "exclusive" 300).1 = some 1 := by
  decide

example :
    (acquire_lock
      (acquire_lock initialState 1 1 10 20 ["chassis.bolt1"] "exclusive" 300).2
      2 1 11 21 ["chassis.bolt1"] "exclusive" 300).1 = none := by
  decide

example :
    (acquire_lock
      (release_lock
        (acquire_lock initialState 1 1 10 20 ["chassis.bolt1"] "exclusive" 300).2 1).2
      2 1 11 21 ["chassis.bolt1"] "exclusive" 300).1 = some 2 := by
  decide

/-! ## C1: lock validation of `POST /edit-operations` -/

/-- A concrete edit operation on twin 5. -/
def c1op : EditOperation := ⟨5, "update_component", "chassis.bolt1", "payload1", none⟩

/-- A server state with no locks at all (neither KV records nor `edit_locks`
rows) and one session `s2` connected and subscribed to twin 5. -/
def c1state : SysState := ⟨0, [], [], [], ["s2"], [(5, ["s2"])], []⟩

/-- C1, counterexample.  The claim says a request without a covering active
lock is rejected with Unauthorized, persisting nothing and broadcasting
nothing.  In the source `submit_edit_operation` performs no lock check: in a
state with no locks whatsoever (so the caller holds no covering active lock
under any reading), the operation is persisted and a frame is broadcast. -/
theorem c1_counterexample :
    specCoveringLock c1state 7 5 "chassis.bolt1" = false ∧
    (submit_edit_operation c1state 42 c1op 7).2.edit_operations.length = 1 ∧
    countFrames (submit_edit_operation c1state 42 c1op 7).2.delivered "s2" 42 = 1 := by
  decide

/-- C1, amended.  `submit_edit_operation` performs no lock validation:
even when the caller holds no active lock covering the operation's
`component_path`, the handler persists the edit operation (appending the
row to `edit_operations`) and returns the fresh operation id; it never
rejects for lack of a lock. -/
theorem c1_amended (s : SysState) (opId : Nat) (op : EditOperation) (uid : Nat)
    (_hnolock : specCoveringLock s uid op.twin_id op.component_path = false) :
    (submit_edit_operation s opId op uid).1 = opId ∧
    (submit_edit_operation s opId op uid).2.edit_operations =
      s.edit_operations ++
        [⟨opId, op.twin_id, uid, op.operation_type, op.component_path,
          op.operation_data, op.vector_clock.getD []⟩] := by
  unfold submit_edit_operation broadcast_to_twin
  cases h : lookupSubscribers s.twin_subscribers op.twin_id <;> simp [h]

/-- Witness for `c1_amended` at `c1state`. -/
theorem c1_amended_witness :
    specCoveringLock c1state 7 5 "chassis.bolt1" = false ∧
    ((submit_edit_operation c1state 42 c1op 7).1 = 42 ∧
      (submit_edit_operation c1state 42 c1op 7).2.edit_operations =
        c1state.edit_operations ++
          [⟨42, c1op.twin_id, 7, c1op.operation_type, c1op.component_path,
            c1op.operation_data, c1op.vector_clock.getD []⟩]) :=
  ⟨by decide, c1_amended c1state 42 c1op 7 (by decide)⟩

/-! ## C2: conflict behaviour of `acquire_lock` -/

/-- A state in which twin 1 is held by a live shared lock (lock 9, user 5)
on component `a` only. -/
def c2state : SysState :=
  ⟨0, [(1, ⟨9, 1, 5, 5, ["a"], "shared", 300⟩)],
    [⟨9, 1, 5, 5, "shared", ["a"], 300, 0, true⟩], [], [], [], []⟩

/-- C2, counterexample.  The claim says a shared request succeeds when all
existing holders are shared — in particular when the components do not even
overlap.  In the source, a shared request for component `b` against a twin
whose only holder is a shared lock on component `a` still fails: the
conflict checks pass, but the `SET nx=True` cannot replace the existing
key, so `acquire_lock` returns `None` (surfaced as 409 Conflict). -/
theorem c2_counterexample :
    componentsOverlap ["a"] ["b"] = false ∧
    (acquire_lock c2state 2 1 6 6 ["b"] "shared" 300).1 = none := by
  decide

/-- C2, amended.  `acquire_lock` stores a single record per twin and
installs it with `SET nx=True`, so it succeeds (returning the fresh lock
id) exactly when the twin has no live KV lock record at all; whenever any
live record exists — shared or exclusive, overlapping or not — the call
returns Conflict, either at the explicit conflict checks or at the failed
`SET nx=True`. -/
theorem c2_amended (s : SysState) (lid twin user sess : Nat)
    (comps : List String) (lt : String) (timeout : Nat) :
    (acquire_lock s lid twin user sess comps lt timeout).1 = some lid ↔
      redisGet s.kv s.now twin = none := by
  unfold acquire_lock redisSetNX
  cases h : redisGet s.kv s.now twin <;> simp [h]

/-! ## C3: the active-lock exclusivity invariant -/

/-- Acquire an exclusive lock 1 on component `a` of twin 1 at time 0 with
the default TTL of 300. -/
def c3s1 : SysState := (acquire_lock initialState 1 1 1 1 ["a"] "exclusive" 300).2

/-- Let 301 seconds pass: the Redis TTL of `lock:twin:1` lapses while the
SQL row of lock 1 still has `is_active = TRUE` (the reaper has not run). -/
def c3s2 : SysState := { c3s1 with now := c3s1.now + 301 }

/-- A second exclusive acquire on the same component now succeeds, because
the lapsed KV key is invisible to `GET` and free for `SET nx=True`. -/
def c3s3 : SysState := (acquire_lock c3s2 2 1 2 2 ["a"] "exclusive" 300).2

/-- Releasing the stale lock id 1 deletes the Redis key `lock:twin:1` — the
key that currently holds lock 2's record. -/
def c3s4 : SysState := (release_lock c3s3 1).2

/-- With the key gone, a third exclusive acquire on the same component
succeeds while lock 2 is still active and unexpired. -/
def c3s5 : SysState := (acquire_lock c3s4 3 1 3 3 ["a"] "exclusive" 300).2

/-- C3.  The invariant fails on the source: the state reached by the trace
`acquire L1 → TTL lapse → acquire L2 → release L1 → acquire L3` is
reachable through the lock manager's operations, yet it carries two
distinct active (flagged and unexpired) exclusive locks, L2 and L3, with
overlapping components on the same twin.  `release_lock` deletes the
twin's KV key without checking that the key still belongs to the released
lock, and `acquire_lock` consults only the KV record, never the SQL
shadow. -/
theorem c3_invariant_violated :
    LockReachable c3s5 ∧ lockInvariant c3s5 = false ∧
    (c3s5.locks.filter (fun r =>
      activeRow c3s5.now r && r.lock_type == "exclusive")).length = 2 := by
  refine ⟨?_, by decide, by decide⟩
  have h0 : LockReachable initialState := LockReachable.init
  have h1 : LockReachable c3s1 :=
    h0.step (LockStep.acquire initialState 1 1 1 1 ["a"] "exclusive" 300 (by decide))
  have h2 : LockReachable c3s2 := h1.step (LockStep.tick c3s1 301)
  have h3 : LockReachable c3s3 :=
    h2.step (LockStep.acquire c3s2 2 1 2 2 ["a"] "exclusive" 300 (by decide))
  have h4 : LockReachable c3s4 := h3.step (LockStep.release c3s3 1)
  exact h4.step (LockStep.acquire c3s4 3 1 3 3 ["a"] "exclusive" 300 (by decide))

/-! ## C4: broadcast fan-out of accepted edit operations -/

/-- `countFrames` distributes over an appended delivery log. -/
theorem countFrames_append (a b : List (String × Envelope)) (sid : String) (opId : Nat) :
    countFrames (a ++ b) sid opId = countFrames a sid opId + countFrames b sid opId := by
  simp [countFrames, List.filter_append]

/-- Delivering one fixed `edit_operation` envelope to each session of a
list yields as many frames for `sid` as `sid` occurs in the list. -/
theorem countFrames_map_self (l : List String) (env : Envelope) (sid : String) (opId : Nat)
    (h1 : env.mtype = "edit_operation") (h2 : env.operation_id = opId) :
    countFrames (l.map (fun x => (x, env))) sid opId = l.count sid := by
  induction l with
  | nil => rfl
  | cons x xs ih =>
    by_cases hx : x = sid
    · subst hx
      simp [countFrames, List.filter_cons, h1, h2, List.count_cons] at *
      omega
    · simp [countFrames, List.filter_cons, h1, h2, List.count_cons, hx,
        Ne.symm hx] at *
      omega

/-- With no `exclude_session`, `broadcast_to_twin` appends one frame for
every subscriber of the twin that has an active connection. -/
theorem broadcast_delivered_none (s : SysState) (twin : Nat) (env : Envelope)
    (subs : List String)
    (hsubs : lookupSubscribers s.twin_subscribers twin = some subs) :
    (broadcast_to_twin s twin env none).delivered =
      s.delivered ++
        (subs.filter (fun x => s.active_connections.contains x)).map
          (fun x => (x, env)) := by
  unfold broadcast_to_twin
  rw [hsubs]
  simp

/-- A concrete edit operation on twin 1. -/
def c4op : EditOperation := ⟨1, "update_component", "chassis.bolt1", "payload2", none⟩

/-- Three sessions, all connected and all subscribed to twin 1; `s1` is the
session of user 7, who posts the edit operation. -/
def c4state : SysState := ⟨0, [], [], [], ["s1", "s2", "s3"], [(1, ["s1", "s2", "s3"])], []⟩

/-- C4, counterexample.  The claim says the envelope is broadcast with the
caller's session excluded, so the originating session receives no frame.
The source call at main.py lines 629-637 passes no `exclude_session`, so
the originator's session `s1` receives exactly one frame too, like `s2`
and `s3`. -/
theorem c4_counterexample :
    countFrames (submit_edit_operation c4state 42 c4op 7).2.delivered "s1" 42 = 1 ∧
    countFrames (submit_edit_operation c4state 42 c4op 7).2.delivered "s2" 42 = 1 ∧
    countFrames (submit_edit_operation c4state 42 c4op 7).2.delivered "s3" 42 = 1 := by
  decide

/-- C4, amended.  When an edit operation is accepted for a twin, the
pipeline broadcasts the `edit_operation` envelope to all subscribers with
no session excluded: every subscriber of the twin with an active
connection — the originating session included — receives exactly one new
`edit_operation` frame referencing the fresh operation id. -/
theorem c4_amended (s : SysState) (opId : Nat) (op : EditOperation) (uid : Nat)
    (sid : String) (subs : List String)
    (hsubs : lookupSubscribers s.twin_subscribers op.twin_id = some subs)
    (hnodup : subs.Nodup) (hmem : sid ∈ subs)
    (hconn : s.active_connections.contains sid = true) :
    countFrames (submit_edit_operation s opId op uid).2.delivered sid opId =
      countFrames s.delivered sid opId + 1 := by
  have h1 : (submit_edit_operation s opId op uid).2.delivered =
      s.delivered ++
        (subs.filter (fun x => s.active_connections.contains x)).map
          (fun x => (x, (⟨"edit_operation", opId, uid, op⟩ : Envelope))) := by
    exact broadcast_delivered_none _ _ _ subs hsubs
  rw [h1, countFrames_append, countFrames_map_self _ _ _ _ rfl rfl]
  have hm : sid ∈ subs.filter (fun x => s.active_connections.contains x) :=
    List.mem_filter.2 ⟨hmem, hconn⟩
  rw [List.count_eq_one_of_mem (hnodup.filter _) hm]

/-- Witness for `c4_amended`: in `c4state`, subscriber `s2` receives
exactly one frame for the new operation. -/
theorem c4_amended_witness :
    lookupSubscribers c4state.twin_subscribers c4op.twin_id = some ["s1", "s2", "s3"] ∧
    (["s1", "s2", "s3"] : List String).Nodup ∧
    "s2" ∈ (["s1", "s2", "s3"] : List String) ∧
    c4state.active_connections.contains "s2" = true ∧
    countFrames (submit_edit_operation c4state 42 c4op 7).2.delivered "s2" 42 =
      countFrames c4state.delivered "s2" 42 + 1 :=
  ⟨by decide, by decide, by decide, by decide,
    c4_amended c4state 42 c4op 7 "s2" ["s1", "s2", "s3"]
      (by decide) (by decide) (by decide) (by decide)⟩

/-! ## C5: heartbeat on an expired lock -/

/-- Updating `heartbeat_at` on the rows matching a lock id commutes with
looking the lock id up, because the update preserves `lock_id`. -/
theorem findLockRow_map_heartbeat (locks : List EditLockRow) (lid now : Nat) :
    findLockRow (locks.map (fun r =>
        if r.lock_id == lid && r.is_active then { r with heartbeat_at := now } else r)) lid =
      (findLockRow locks lid).map (fun r =>
        if r.lock_id == lid && r.is_active then { r with heartbeat_at := now } else r) := by
  unfold findLockRow
  rw [List.find?_map]
  have hcomp : ((fun r : EditLockRow => r.lock_id == lid) ∘ (fun r =>
      if r.lock_id == lid && r.is_active then { r with heartbeat_at := now } else r)) =
      (fun r : EditLockRow => r.lock_id == lid) := by
    funext r
    by_cases h : (r.lock_id == lid && r.is_active) = true <;>
      simp [Function.comp, h]
  rw [hcomp]

/-- A state at time 400 in which lock 5 on twin 1 is still flagged active
in SQL with `expires_at = 300`, and the Redis key `lock:twin:1` has a
lapsed TTL (`kv_expires_at = 300 < 400`): the KV key has already
expired. -/
def c5state : SysState :=
  ⟨400, [(1, ⟨5, 1, 2, 2, ["a"], "exclusive", 300⟩)],
    [⟨5, 1, 2, 2, "exclusive", ["a"], 300, 10, true⟩], [], [], [], []⟩

/-- C5, counterexample.  The claim says `heartbeat(lock_id)` returns
`Expired` when the lock's KV key has already expired.  The source function
has no return statement: it returns Python `None` here exactly as in every
other case, after refreshing `heartbeat_at` on the still-flagged-active
SQL row; the lapsed KV key is untouched (the TTL extension is a no-op). -/
theorem c5_counterexample :
    redisGet c5state.kv c5state.now 1 = none ∧
    (heartbeat_lock c5state 5).1 = none ∧
    (heartbeat_lock c5state 5).1 ≠ some HeartbeatStatus.expired ∧
    (heartbeat_lock c5state 5).2.kv = c5state.kv ∧
    findLockRow (heartbeat_lock c5state 5).2.locks 5 =
      some ⟨5, 1, 2, 2, "exclusive", ["a"], 300, 400, true⟩ := by
  decide

/-- C5, amended.  `heartbeat_lock` never reports expiry: it returns Python
`None` on every path, and when the KV keys of the rows carrying the given
lock id have already expired it leaves the KV unchanged (the `EXPIRE` is a
no-op on a dead key) while still stamping `heartbeat_at = NOW()` on the
active SQL row — callers are given no signal that they must re-acquire. -/
theorem c5_amended (s : SysState) (lid : Nat)
    (hdead : ∀ row ∈ s.locks, row.lock_id = lid →
      redisGet s.kv s.now row.twin_id = none) :
    (heartbeat_lock s lid).1 = none ∧ (heartbeat_lock s lid).2.kv = s.kv := by
  cases hf : findLockRow s.locks lid with
  | none =>
    have hfind : findLockRow (s.locks.map (fun r =>
        if r.lock_id == lid && r.is_active then
          { r with heartbeat_at := s.now } else r)) lid = none := by
      rw [findLockRow_map_heartbeat, hf]; rfl
    have h1 : heartbeat_lock s lid =
        (none, { s with locks := s.locks.map (fun r =>
          if r.lock_id == lid && r.is_active then
            { r with heartbeat_at := s.now } else r) }) := by
      simp only [heartbeat_lock]
      rw [hfind]
    rw [h1]
    exact ⟨rfl, rfl⟩
  | some row =>
    have hmem : row ∈ s.locks := List.mem_of_find?_eq_some hf
    have hid : row.lock_id = lid := by
      have hp := List.find?_some hf
      simpa [findLockRow] using hp
    have hkv := hdead row hmem hid
    have htwin :
        (if row.lock_id == lid && row.is_active then
          { row with heartbeat_at := s.now } else row).twin_id = row.twin_id := by
      by_cases h : (row.lock_id == lid && row.is_active) = true <;> simp [h]
    have hfind : findLockRow (s.locks.map (fun r =>
        if r.lock_id == lid && r.is_active then
          { r with heartbeat_at := s.now } else r)) lid =
        some (if row.lock_id == lid && row.is_active then
          { row with heartbeat_at := s.now } else row) := by
      rw [findLockRow_map_heartbeat, hf]; rfl
    have h1 : heartbeat_lock s lid =
        (none, { s with
          locks := s.locks.map (fun r =>
            if r.lock_id == lid && r.is_active then
              { r with heartbeat_at := s.now } else r),
          kv := redisExpire s.kv s.now
            (if row.lock_id == lid && row.is_active then
              { row with heartbeat_at := s.now } else row).twin_id 300 }) := by
      simp only [heartbeat_lock]
      rw [hfind]
    rw [h1]
    refine ⟨rfl, ?_⟩
    show redisExpire s.kv s.now
      (if row.lock_id == lid && row.is_active then
        { row with heartbeat_at := s.now } else row).twin_id 300 = s.kv
    rw [htwin]
    unfold redisExpire
    rw [hkv]

/-- Witness for `c5_amended` at `c5state`. -/
theorem c5_amended_witness :
    (∀ row ∈ c5state.locks, row.lock_id = 5 →
      redisGet c5state.kv c5state.now row.twin_id = none) ∧
    ((heartbeat_lock c5state 5).1 = none ∧ (heartbeat_lock c5state 5).2.kv = c5state.kv) :=
  ⟨by decide, c5_amended c5state 5 (by decide)⟩

/-! ## C10: release of an existing but inactive lock id -/

/-- After `DELETE lock:twin:<twin>` the key is gone. -/
theorem lookup_redisDelete (kv : List (Nat × LockData)) (twin : Nat) :
    List.lookup twin (redisDelete kv twin) = none := by
  induction kv with
  | nil => rfl
  | cons p rest ih =>
    unfold redisDelete at *
    rw [List.filter_cons]
    by_cases h : p.1 = twin
    · simp [h, ih]
    · have hb : (p.1 != twin) = true := by simp [bne_iff_ne, h]
      rw [if_pos hb]
      have hb2 : (twin == p.1) = false := by simp [Ne.symm h]
      simp [List.lookup, hb2, ih]

/-- C10.  The release endpoint answers 404 exactly when no `edit_locks`
row exists for the lock id at all; for any existing row — active or
already inactive — it answers `released` and deletes the Redis key
`lock:twin:<twin_id>` of that row's twin, removing whatever lock record
currently lives there. -/
theorem c10_release_semantics (s : SysState) (lid : Nat) :
    ((release_lock_endpoint s lid).1 = ReleaseResult.notFound ↔
      findLockRow s.locks lid = none) ∧
    (∀ row, findLockRow s.locks lid = some row →
      (release_lock_endpoint s lid).1 = ReleaseResult.released ∧
      List.lookup row.twin_id (release_lock_endpoint s lid).2.kv = none) := by
  unfold release_lock_endpoint release_lock
  cases hf : findLockRow s.locks lid with
  | none =>
    refine ⟨by simp, ?_⟩
    intro row hrow
    exact absurd hrow (by simp)
  | some row =>
    refine ⟨by simp, ?_⟩
    intro row' hrow
    have hr : row = row' := by injection hrow
    subst hr
    exact ⟨rfl, lookup_redisDelete s.kv row.twin_id⟩

/-- The row of lock 4 on twin 2: it exists but is already inactive. -/
def c10row : EditLockRow := ⟨4, 2, 1, 1, "exclusive", ["a"], 100, 0, false⟩

/-- A state where the inactive row of lock 4 coexists with a live lock 8
on the same twin 2 (both in SQL and in the KV). -/
def c10state : SysState :=
  ⟨500, [(2, ⟨8, 2, 9, 9, ["b"], "exclusive", 800⟩)],
    [c10row, ⟨8, 2, 9, 9, "exclusive", ["b"], 800, 500, true⟩], [], [], [], []⟩

/-- Witness for `c10_release_semantics`: releasing the stale lock id 4
answers `released` and deletes twin 2's KV key, which held lock 8's
record. -/
theorem c10_release_witness :
    findLockRow c10state.locks 4 = some c10row ∧
    ((release_lock_endpoint c10state 4).1 = ReleaseResult.released ∧
      List.lookup c10row.twin_id (release_lock_endpoint c10state 4).2.kv = none) :=
  ⟨by decide, (c10_release_semantics c10state 4).2 c10row (by decide)⟩

/-! ## Embedding of the maintenance agent (`src/agent.py`)

Telemetry float values are embedded as `ℚ` (every Python float is a
rational); quantities the source derives with `np.sqrt` and `np.exp` live
in `ℝ`. -/

/-- `AgentConfig.VIBRATION_CRITICAL` (agent.py line 33). -/
noncomputable def VIBRATION_CRITICAL : ℝ := 0.8

/-- `AgentConfig.TEMPERATURE_CRITICAL` (agent.py line 35). -/
noncomputable def TEMPERATURE_CRITICAL : ℝ := 95

/-- A row of `telemetry_data` as fetched by the agent; every field is
nullable. -/
structure TelemetryRow where
  rpm : Option ℚ
  torque_nm : Option ℚ
  vibration_x_g : Option ℚ
  vibration_y_g : Option ℚ
  vibration_z_g : Option ℚ
  temperature_c : Option ℚ
  tool_wear_percent : Option ℚ
deriving DecidableEq

/-- Python truthiness of a nullable float as used in the source's filters
(`if t['temperature_c']`, `all([x, y, z])`): `None` and `0.0` are falsy. -/
def pyTruthy (v : Option ℚ) : Bool :=
  match v with
  | none => false
  | some q => q != 0

/-- The value of a field (fields read by the source after a truthiness
check are always present). -/
def qval (v : Option ℚ) : ℚ := v.getD 0

/-- The guard `all([t['vibration_x_g'], t['vibration_y_g'],
t['vibration_z_g']])` of the vibration comprehensions. -/
def hasVibration (t : TelemetryRow) : Bool :=
  pyTruthy t.vibration_x_g && pyTruthy t.vibration_y_g && pyTruthy t.vibration_z_g

/-- `np.sqrt(x**2 + y**2 + z**2)` for one row. -/
noncomputable def vibrationMagnitude (t : TelemetryRow) : ℝ :=
  Real.sqrt ((qval t.vibration_x_g : ℝ) ^ 2 + (qval t.vibration_y_g : ℝ) ^ 2 +
    (qval t.vibration_z_g : ℝ) ^ 2)

/-- The comprehension `[np.sqrt(...) for t in telemetry if all([...])]`
(agent.py lines 194-197 and 534-537). -/
noncomputable def vibrationList (telemetry : List TelemetryRow) : List ℝ :=
  (telemetry.filter hasVibration).map vibrationMagnitude

/-- `np.mean`.  numpy's mean of an empty list is NaN; that case is mapped
to 0 here and no theorem below depends on it (the source only reaches it
when a non-empty window has every value of some field null). -/
noncomputable def npMean (l : List ℝ) : ℝ :=
  if l.length = 0 then 0 else l.sum / l.length

/-- `MaintenanceAgent.predict_failure_time` (agent.py lines 529-548):
`None` for an empty window and for fewer than two usable vibration
samples; `0.0` when the mean magnitude has reached
`VIBRATION_CRITICAL`; otherwise `720 * (1 - mean / VIBRATION_CRITICAL)`
clamped at 0. -/
noncomputable def predict_failure_time (recent_data : List TelemetryRow) : Option ℝ :=
  match recent_data with
  | [] => none
  | _ :: _ =>
    let vibrations := vibrationList recent_data
    if vibrations.length < 2 then none
    else
      let avg_vib := npMean vibrations
      if avg_vib ≥ VIBRATION_CRITICAL then some 0
      else some (max 0 (720 * (1 - avg_vib / VIBRATION_CRITICAL)))

/-- The `vib_score` of `calculate_health_score` (agent.py line 245). -/
noncomputable def vib_score (vibration : ℝ) : ℝ :=
  max 0 (100 - vibration / VIBRATION_CRITICAL * 100)

/-- The `temp_score` of `calculate_health_score` (agent.py line 248). -/
noncomputable def temp_score (temperature : ℝ) : ℝ :=
  max 0 (100 - temperature / TEMPERATURE_CRITICAL * 100)

/-- The `wear_score` of `calculate_health_score` (agent.py line 251). -/
noncomputable def wear_score (tool_wear : ℝ) : ℝ := max 0 (100 - tool_wear)

/-- The `maint_score` of `calculate_health_score` (agent.py line 254):
`100 * np.exp(-days_since_maintenance / 180)` (Python float division). -/
noncomputable def maint_score (days_since_maintenance : ℤ) : ℝ :=
  100 * Real.exp (-(days_since_maintenance : ℝ) / 180)

/-- `MaintenanceAgent.calculate_health_score` (agent.py lines 234-264):
weighted average of the four scores (`rpm` is accepted and ignored, as in
the source), clamped to `[0, 100]`. -/
noncomputable def calculate_health_score (vibration temperature rpm tool_wear : ℝ)
    (days_since_maintenance : ℤ) : ℝ :=
  max 0 (min 100
    (0.3 * vib_score vibration + 0.25 * temp_score temperature +
      0.25 * wear_score tool_wear + 0.2 * maint_score days_since_maintenance))

/-- The `NodeHealth` dataclass (agent.py lines 57-68). -/
structure NodeHealth where
  node_id : String
  status : String
  health_score : ℝ
  vibration_level : ℝ
  temperature : ℝ
  rpm : ℝ
  tool_wear : ℝ
  last_maintenance_days : ℤ
  predicted_failure_hours : Option ℝ
  anomaly_score : ℝ

/-- `MaintenanceAgent.assess_node_health` (agent.py lines 165-232).
`telemetry` is the fetched 5-minute window; `node_info` is the
`machine_nodes` row (`none` if absent) carrying the nullable
`last_maintenance_date`, with dates embedded as day numbers; `today` is
`datetime.now().date()`.  An empty window yields the zeroed early return
with `last_maintenance_days = 9999`; otherwise the field averages use the
source's truthiness filters and `days_since_maintenance` starts at `0`
and is only overwritten when the row exists and the date is non-null. -/
noncomputable def assess_node_health (node_id : String) (telemetry : List TelemetryRow)
    (node_info : Option (Option ℤ)) (today : ℤ) : NodeHealth :=
  match telemetry with
  | [] => ⟨node_id, "unknown", 0, 0, 0, 0, 0, 9999, none, 0⟩
  | _ :: _ =>
    let avg_vibration : ℝ :=
      if telemetry.length > 0 then npMean (vibrationList telemetry) else 0
    let avg_temp : ℝ :=
      if telemetry.length > 0 then
        npMean ((telemetry.filter (fun t => pyTruthy t.temperature_c)).map
          (fun t => (qval t.temperature_c : ℝ)))
      else 0
    let avg_rpm : ℝ :=
      if telemetry.length > 0 then
        npMean ((telemetry.filter (fun t => pyTruthy t.rpm)).map
          (fun t => (qval t.rpm : ℝ)))
      else 0
    let avg_tool_wear : ℝ :=
      if telemetry.length > 0 then
        npMean ((telemetry.filter (fun t => pyTruthy t.tool_wear_percent)).map
          (fun t => (qval t.tool_wear_percent : ℝ)))
      else 0
    let days_since_maintenance : ℤ :=
      match node_info with
      | some (some last_maintenance_date) => today - last_maintenance_date
      | _ => 0
    let health_score :=
      calculate_health_score avg_vibration avg_temp avg_rpm avg_tool_wear
        days_since_maintenance
    let predicted_failure := predict_failure_time telemetry
    ⟨node_id, "online", health_score, avg_vibration, avg_temp, avg_rpm, avg_tool_wear,
      days_since_maintenance, predicted_failure, 0⟩

/-- A row of `maintenance_tickets`.  The INSERT of
`create_maintenance_ticket` does not set `status`; the DDL is out of
scope, and per the spec a fresh ticket's lifecycle starts at `open`.
`created_at` is in hours. -/
structure TicketRow where
  node_id : String
  severity : String
  title : String
  description : String
  diagnostic_data : String
  status : String
  created_at : Int
deriving DecidableEq

/-- The duplicate lookup of `create_maintenance_ticket` (agent.py lines
666-675): same node and title, status `open` or `acknowledged`, created
in the last 24 hours. -/
def dedupMatch (now : Int) (node_id title : String) (r : TicketRow) : Bool :=
  r.node_id == node_id && r.title == title &&
    (r.status == "open" || r.status == "acknowledged") &&
    decide (now - 24 < r.created_at)

/-- `MaintenanceAgent.create_maintenance_ticket` (agent.py lines 655-691):
suppress silently when a duplicate exists, otherwise insert the row. -/
def create_maintenance_ticket (tickets : List TicketRow) (now : Int)
    (node_id severity title description diagnostic_data : String) :
    List TicketRow :=
  if tickets.any (dedupMatch now node_id title) then tickets
  else tickets ++ [⟨node_id, severity, title, description, diagnostic_data, "open", now⟩]

/-- Number of tickets for a `(node_id, title)` pair. -/
def countTickets (tickets : List TicketRow) (node_id title : String) : Nat :=
  (tickets.filter (fun r => r.node_id == node_id && r.title == title)).length

/-! ## C6: `days_since_maintenance` in the health assessment -/

/-- A full telemetry row: rpm 2000, torque 40, vibration (0.1, 0.4, 0.8),
temperature 60, tool wear 30. -/
def c6row : TelemetryRow :=
  ⟨some 2000, some 40, some (1/10), some (2/5), some (4/5), some 60, some 30⟩

/-- C6, counterexample.  The claim says `days_since_maintenance` is 9999
whenever the last maintenance date is unknown.  In the source the 9999
default lives only in the empty-telemetry early return; in the normal
path `days_since_maintenance` is initialized to `0` and left there when
the `machine_nodes` row has a null `last_maintenance_date` (or is
absent). -/
theorem c6_counterexample :
    (assess_node_health "n1" [c6row] (some none) 1000).last_maintenance_days = 0 ∧
    (assess_node_health "n1" [c6row] (some none) 1000).last_maintenance_days ≠ 9999 := by
  constructor
  · rfl
  · rw [show (assess_node_health "n1" [c6row] (some none) 1000).last_maintenance_days = 0
      from rfl]
    decide

/-- C6, amended.  With a non-empty telemetry window,
`days_since_maintenance` equals the whole number of days between today
and the node's last maintenance date when that date is known, and `0`
when the `machine_nodes` row is missing or its date is null; the value
9999 is produced only by the empty-window early return (whose whole
health record is zeroed). -/
theorem c6_amended (node_id : String) (telemetry : List TelemetryRow)
    (node_info : Option (Option ℤ)) (today : ℤ) :
    (telemetry = [] →
      (assess_node_health node_id telemetry node_info today).last_maintenance_days = 9999) ∧
    (telemetry ≠ [] →
      (assess_node_health node_id telemetry node_info today).last_maintenance_days =
        match node_info with
        | some (some d) => today - d
        | _ => 0) := by
  cases telemetry with
  | nil => exact ⟨fun _ => rfl, fun h => absurd rfl h⟩
  | cons t ts =>
    refine ⟨fun h => absurd h (List.cons_ne_nil t ts), fun _ => ?_⟩
    cases node_info with
    | none => rfl
    | some inner =>
      cases inner with
      | none => rfl
      | some d => rfl

/-- Witness for `c6_amended`: a known maintenance date 30 days back
yields 30. -/
theorem c6_amended_witness :
    (([c6row] : List TelemetryRow) ≠ []) ∧
    (assess_node_health "n1" [c6row] (some (some 970)) 1000).last_maintenance_days =
      1000 - 970 :=
  ⟨by decide, (c6_amended "n1" [c6row] (some (some 970)) 1000).2 (by decide)⟩

/-! ## C9: ticket deduplication -/

/-- C9.  When some existing ticket for the `(node_id, title)` pair is
`open` or `acknowledged` and was created within the preceding 24 hours,
`create_maintenance_ticket` inserts nothing: the table is unchanged, and
in particular the ticket count for the pair stays what it was. -/
theorem c9_dedup (tickets : List TicketRow) (now : Int)
    (node_id severity title description diagnostic_data : String)
    (hdup : tickets.any (dedupMatch now node_id title) = true) :
    create_maintenance_ticket tickets now node_id severity title description
        diagnostic_data = tickets ∧
    countTickets (create_maintenance_ticket tickets now node_id severity title
        description diagnostic_data) node_id title =
      countTickets tickets node_id title := by
  unfold create_maintenance_ticket
  rw [if_pos hdup]
  exact ⟨rfl, rfl⟩

/-- The title of the spec's dedup scenario. -/
def c9title : String := "Critical vibration: 0.85g (limit: 0.8g)"

/-- The table after the first `create_maintenance_ticket` at hour 0 on an
empty table. -/
def c9first : List TicketRow :=
  create_maintenance_ticket [] 0 "N7" "critical" c9title "desc" "diag"

/-- Witness for `c9_dedup`: a second identical create one hour later is a
no-op and the count for the pair stays at 1. -/
theorem c9_dedup_witness :
    c9first.any (dedupMatch 1 "N7" c9title) = true ∧
    (create_maintenance_ticket c9first 1 "N7" "critical" c9title "desc" "diag" =
        c9first ∧
      countTickets (create_maintenance_ticket c9first 1 "N7" "critical" c9title
          "desc" "diag") "N7" c9title = countTickets c9first "N7" c9title) ∧
    countTickets c9first "N7" c9title = 1 :=
  ⟨by decide, c9_dedup c9first 1 "N7" "critical" c9title "desc" "diag" (by decide),
    by decide⟩

/-! ## C8: the short-term failure predictor -/

/-- A row whose vibration magnitude is √(0.01 + 0.16 + 0.64) = 0.9. -/
def c8row1 : TelemetryRow :=
  ⟨none, none, some (1/10), some (2/5), some (4/5), none, none⟩

/-- A row whose vibration magnitude is √(0.04 + 0.09 + 0.36) = 0.7. -/
def c8row2 : TelemetryRow :=
  ⟨none, none, some (1/5), some (3/10), some (3/5), none, none⟩

theorem c8row1_mag : vibrationMagnitude c8row1 = 0.9 := by
  unfold vibrationMagnitude c8row1 qval
  have h : ((((1:ℚ)/10 : ℚ) : ℝ) ^ 2 + (((2:ℚ)/5 : ℚ) : ℝ) ^ 2 +
      (((4:ℚ)/5 : ℚ) : ℝ) ^ 2) = (0.9 : ℝ) ^ 2 := by
    push_cast
    norm_num
  rw [show (Option.some ((1:ℚ)/10)).getD 0 = (1:ℚ)/10 from rfl]
  rw [show (Option.some ((2:ℚ)/5)).getD 0 = (2:ℚ)/5 from rfl]
  rw [show (Option.some ((4:ℚ)/5)).getD 0 = (4:ℚ)/5 from rfl]
  rw [h, Real.sqrt_sq (by norm_num)]

theorem c8row2_mag : vibrationMagnitude c8row2 = 0.7 := by
  unfold vibrationMagnitude c8row2 qval
  have h : ((((1:ℚ)/5 : ℚ) : ℝ) ^ 2 + (((3:ℚ)/10 : ℚ) : ℝ) ^ 2 +
      (((3:ℚ)/5 : ℚ) : ℝ) ^ 2) = (0.7 : ℝ) ^ 2 := by
    push_cast
    norm_num
  rw [show (Option.some ((1:ℚ)/5)).getD 0 = (1:ℚ)/5 from rfl]
  rw [show (Option.some ((3:ℚ)/10)).getD 0 = (3:ℚ)/10 from rfl]
  rw [show (Option.some ((3:ℚ)/5)).getD 0 = (3:ℚ)/5 from rfl]
  rw [h, Real.sqrt_sq (by norm_num)]

/-- C8, counterexample.  The claim says `predict_failure_time` returns
0.0 whenever the mean magnitude over the available window reaches
`VIBRATION_CRITICAL`.  A window with a single usable vibration sample of
magnitude 0.9 has mean 0.9 ≥ 0.8, yet the source's `len(vibrations) < 2`
guard makes it return `None` instead of `0.0`. -/
theorem c8_counterexample :
    predict_failure_time [c8row1] = none ∧
    npMean (vibrationList [c8row1]) = 0.9 ∧
    npMean (vibrationList [c8row1]) ≥ VIBRATION_CRITICAL := by
  have hf : List.filter hasVibration [c8row1] = [c8row1] := by
    simp [hasVibration, pyTruthy, c8row1]
  have h1 : vibrationList [c8row1] = [vibrationMagnitude c8row1] := by
    unfold vibrationList
    rw [hf]
    rfl
  have hmean : npMean (vibrationList [c8row1]) = 0.9 := by
    rw [h1, c8row1_mag]
    simp [npMean]
  refine ⟨?_, hmean, ?_⟩
  · simp [predict_failure_time, h1]
  · rw [hmean]
    unfold VIBRATION_CRITICAL
    norm_num

/-- C8, amended.  Given at least two usable vibration samples (rows whose
three axes are present and nonzero), `predict_failure_time` returns 0.0
when their mean magnitude is at least `VIBRATION_CRITICAL` — exactly 0.0
at equality — and otherwise `720 × (1 − mean / VIBRATION_CRITICAL)`
clamped at 0; with fewer than two usable samples it returns `None`. -/
theorem c8_amended (recent_data : List TelemetryRow)
    (hlen : 2 ≤ (vibrationList recent_data).length) :
    (npMean (vibrationList recent_data) ≥ VIBRATION_CRITICAL →
      predict_failure_time recent_data = some 0) ∧
    (npMean (vibrationList recent_data) < VIBRATION_CRITICAL →
      predict_failure_time recent_data = some (max 0
        (720 * (1 - npMean (vibrationList recent_data) / VIBRATION_CRITICAL)))) := by
  cases recent_data with
  | nil => simp [vibrationList] at hlen
  | cons t ts =>
    constructor
    · intro hge
      show (if (vibrationList (t :: ts)).length < 2 then none
        else if npMean (vibrationList (t :: ts)) ≥ VIBRATION_CRITICAL then some 0
        else some (max 0 (720 * (1 - npMean (vibrationList (t :: ts)) /
          VIBRATION_CRITICAL)))) = some 0
      rw [if_neg (by omega), if_pos hge]
    · intro hlt
      show (if (vibrationList (t :: ts)).length < 2 then none
        else if npMean (vibrationList (t :: ts)) ≥ VIBRATION_CRITICAL then some 0
        else some (max 0 (720 * (1 - npMean (vibrationList (t :: ts)) /
          VIBRATION_CRITICAL)))) = some (max 0 (720 * (1 -
            npMean (vibrationList (t :: ts)) / VIBRATION_CRITICAL)))
      rw [if_neg (by omega), if_neg (not_le.mpr hlt)]

/-- Witness for `c8_amended`: two samples of magnitudes 0.7 and 0.9 have
mean exactly `VIBRATION_CRITICAL = 0.8`, and the predictor returns 0.0. -/
theorem c8_amended_witness :
    2 ≤ (vibrationList [c8row2, c8row1]).length ∧
    npMean (vibrationList [c8row2, c8row1]) ≥ VIBRATION_CRITICAL ∧
    predict_failure_time [c8row2, c8row1] = some 0 := by
  have hf : List.filter hasVibration [c8row2, c8row1] = [c8row2, c8row1] := by
    simp [hasVibration, pyTruthy, c8row2, c8row1]
  have h1 : vibrationList [c8row2, c8row1] =
      [vibrationMagnitude c8row2, vibrationMagnitude c8row1] := by
    unfold vibrationList
    rw [hf]
    rfl
  have hlen : 2 ≤ (vibrationList [c8row2, c8row1]).length := by rw [h1]; simp
  have hmean : npMean (vibrationList [c8row2, c8row1]) = 0.8 := by
    rw [h1, c8row2_mag, c8row1_mag]
    simp [npMean]
    norm_num
  have hge : npMean (vibrationList [c8row2, c8row1]) ≥ VIBRATION_CRITICAL := by
    rw [hmean]
    unfold VIBRATION_CRITICAL
    norm_num
  exact ⟨hlen, hge, (c8_amended [c8row2, c8row1] hlen).1 hge⟩

/-! ## C7: the concrete health-scoring scenario -/

/-- Taylor bounds on `exp (1/6)` from `Real.exp_bound` at order 6. -/
theorem exp_sixth_bounds :
    1.1813603 < Real.exp (1/6) ∧ Real.exp (1/6) < 1.1813605 := by
  have h6 : |(1/6 : ℝ)| ≤ 1 := by
    rw [abs_of_nonneg (by norm_num)]
    norm_num
  have h := @Real.exp_bound (1/6) h6 6 (by norm_num)
  have hsum : (∑ m ∈ Finset.range 6, (1/6 : ℝ) ^ m / m.factorial) = 1102351/933120 := by
    simp [Finset.sum_range_succ, Nat.factorial]
    norm_num
  rw [hsum, abs_of_nonneg (by norm_num : (0:ℝ) ≤ 1/6)] at h
  norm_num [Nat.factorial] at h
  rw [abs_le] at h
  constructor
  · linarith [h.1]
  · linarith [h.2]

/-- `maint_score` at 30 days: `100·e^(−1/6) = 84.6481...`. -/
theorem maint_score_30_bounds : 84.648 < maint_score 30 ∧ maint_score 30 < 84.649 := by
  have hb := exp_sixth_bounds
  have hpos : (0:ℝ) < Real.exp (1/6) := Real.exp_pos _
  have hx : -(((30:ℤ) : ℝ)) / 180 = -(1/6) := by
    push_cast
    ring
  unfold maint_score
  rw [hx, Real.exp_neg, ← div_eq_mul_inv]
  constructor
  · rw [lt_div_iff₀ hpos]
    nlinarith [hb.2]
  · rw [div_lt_iff₀ hpos]
    nlinarith [hb.1]

theorem vib_score_at_04 : vib_score 0.4 = 50 := by
  unfold vib_score VIBRATION_CRITICAL
  rw [show (100:ℝ) - 0.4 / 0.8 * 100 = 50 from by norm_num]
  exact max_eq_right (by norm_num)

theorem temp_score_at_60 : temp_score 60 = 700/19 := by
  unfold temp_score TEMPERATURE_CRITICAL
  rw [show (100:ℝ) - 60 / 95 * 100 = 700/19 from by norm_num]
  exact max_eq_right (by norm_num)

theorem wear_score_at_30 : wear_score 30 = 70 := by
  unfold wear_score
  rw [show (100:ℝ) - 30 = 70 from by norm_num]
  exact max_eq_right (by norm_num)

/-- At the scenario's inputs the `[0,100]` clamp is inert and the health
score is the plain weighted sum. -/
theorem c7_health_eq :
    calculate_health_score 0.4 60 2000 30 30 =
      32.5 + 175/19 + 0.2 * maint_score 30 := by
  have hm := maint_score_30_bounds
  unfold calculate_health_score
  rw [vib_score_at_04, temp_score_at_60, wear_score_at_30]
  have hle : (0.3*(50:ℝ) + 0.25*(700/19) + 0.25*70 + 0.2*maint_score 30) ≤ 100 := by
    nlinarith [hm.2]
  have hge : (0:ℝ) ≤ 0.3*50 + 0.25*(700/19) + 0.25*70 + 0.2*maint_score 30 := by
    nlinarith [hm.1]
  rw [min_eq_right hle, max_eq_right hge]
  ring

/-- C7, counterexample.  The claim puts the composite health score at the
scenario's inputs within 0.1 of 55.6.  The source formula gives
`0.3·50 + 0.25·36.842 + 0.25·70 + 0.2·84.648 = 58.640`, which is not
within 0.1 of 55.6 (the per-metric scores the claim lists are correct;
their weighted sum is not 55.6). -/
theorem c7_counterexample :
    ¬ |calculate_health_score 0.4 60 2000 30 30 - 55.6| ≤ 0.1 := by
  have hm := maint_score_30_bounds
  rw [c7_health_eq, abs_le]
  intro h
  linarith [h.2, hm.1]

/-- C7, amended.  For vibration 0.4 g, temperature 60 °C, rpm 2000, tool
wear 30 % and 30 days since maintenance: `vib_score = 50`,
`wear_score = 70`, `temp_score = 36.84` and `maint_score = 84.65` to
within a half-cent of rounding, and the composite health score is within
0.01 of 58.64 (not 55.6). -/
theorem c7_amended :
    vib_score 0.4 = 50 ∧ wear_score 30 = 70 ∧
    |temp_score 60 - 36.84| < 0.005 ∧
    |maint_score 30 - 84.65| < 0.005 ∧
    |calculate_health_score 0.4 60 2000 30 30 - 58.64| < 0.01 := by
  have hm := maint_score_30_bounds
  refine ⟨vib_score_at_04, wear_score_at_30, ?_, ?_, ?_⟩
  · rw [temp_score_at_60, abs_lt]
    constructor <;> norm_num
  · rw [abs_lt]
    constructor <;> linarith [hm.1, hm.2]
  · rw [c7_health_eq, abs_lt]
    constructor <;> linarith [hm.1, hm.2]
